import Mathlib

/-!
# Energy Generation Report card: metrics and chart pipeline

A shallow embedding of `energy-generation-report-card.js` (class
`EnergyGenerationReportCard`): the configuration step `setConfig`, the
latest-period summary `renderMetrics`, and the series/category construction
of `renderChart`, together with the parts of the JavaScript run time they
rest on (`Array.prototype.sort`, `Array.prototype.slice`,
`Number.prototype.toFixed`).

Conventions of the embedding.

* A JavaScript number is represented by its exact value, a rational: every
  finite double is one.  The billing records reach the card through JSON, which
  cannot carry `NaN` or an infinity.
* `end_date` is represented by the time value of `new Date(period.end_date)`,
  in milliseconds since the epoch, for a date string that parses.
* An object is the list of its own enumerable properties in iteration order.
* Markup returned by the render methods is represented by its element
  structure, not by its text.
-/

namespace EnergyReport

/-! ## Data model -/

/-- One entry of `periods_data`.  `end_date` holds the time value of
`new Date(end_date)`; the other fields are the numbers read by the card. -/
structure BillingPeriod where
  end_date : Int
  solar_generation : ℚ
  grid_consumption : ℚ
  grid_injection : ℚ
  total_consumption : ℚ
  solar_consumption : ℚ
  cumulative_balance : ℚ
deriving DecidableEq

/-- The `periods_data` attribute: an object keyed by period id, as the list of
its properties in iteration order. -/
abbrev PeriodCollection := List (String × BillingPeriod)

/-- `Object.keys(obj)`. -/
def Object.keys (obj : PeriodCollection) : List String := obj.map Prod.fst

/-- `Object.values(obj)`. -/
def Object.values (obj : PeriodCollection) : List BillingPeriod := obj.map Prod.snd

/-! ## Array built-ins -/

/-- `Array.prototype.sort(comparefn)`.  The sort is stable (ECMAScript 2019):
`a` is placed before `b` when `comparefn(a, b) < 0`, and elements that compare
equal keep their original relative order.  For a consistent comparator that
fixes the result, which is computed here by stable insertion. -/
def Array.sort {α : Type} (xs : List α) (comparefn : α → α → Int) : List α :=
  xs.insertionSort (fun a b => comparefn a b ≤ 0)

/-- `Array.prototype.slice(start)` with `end` omitted, for an integral `start`:
a negative `start` counts from the end of the array (`max(len + start, 0)`), a
non-negative one is capped at `len`. -/
def Array.slice {α : Type} (xs : List α) (start : Int) : List α :=
  let len : Int := xs.length
  let k : Int := if start < 0 then max (len + start) 0 else min start len
  xs.drop k.toNat

/-! ## `renderChart`: the retained window -/

/-- The comparator `(a, b) => new Date(a.end_date) - new Date(b.end_date)`.
Time values are integers of magnitude at most 8.64e15, so the sign of the
double difference is the sign of the exact difference. -/
def compareAscending (a b : BillingPeriod) : Int := a.end_date - b.end_date

/-- The comparator `(a, b) => new Date(b.end_date) - new Date(a.end_date)`. -/
def compareDescending (a b : BillingPeriod) : Int := b.end_date - a.end_date

/-- The local `sortedPeriods` of `renderChart`:
`Object.values(periodsData).sort(ascending).slice(-period_months)`. -/
def sortedPeriods (period_months : Int) (periodsData : PeriodCollection) : List BillingPeriod :=
  Array.slice (Array.sort (Object.values periodsData) compareAscending) (-period_months)

/-! ## `Number.prototype.toFixed` -/

/-- The Number value for a real `x ≥ 2^53`: the nearest double, ties to the even
significand (53 bits); `none` stands for `+∞` (overflow past the largest
double).  `e` is the binary exponent of `x`, one less than the number of bits
of its integer part. -/
def roundToDouble (x : ℚ) : Option Nat :=
  let e := (Nat.toDigits 2 ⌊x⌋.toNat).length - 1
  let ulp : Nat := 2 ^ (e - 52)
  let q : Nat := ⌊x / ulp⌋.toNat
  let rest : ℚ := x / ulp - q
  let q := if rest > 1 / 2 ∨ (rest = 1 / 2 ∧ q % 2 = 1) then q + 1 else q
  if q * ulp ≥ 2 ^ 1024 then none else some (q * ulp)

/-- The pair `(s, n)` of `Number::toString` for a double `v` with a `k`-digit
`s`, if there is one: `s × 10^(n-k)` must convert back to `v`.  Of the two
`k`-digit decimals around `v` the one nearer to `v` is taken, the even `s` on a
tie. -/
def shortestDecimal (v k : Nat) : Option (Nat × Nat) :=
  let d := (Nat.toDigits 10 v).length
  let p := 10 ^ (d - k)
  let lo := v / p
  let hi := lo + 1
  let okLo := decide (roundToDouble (lo * p : Nat) = some v)
  let okHi := decide (roundToDouble (hi * p : Nat) = some v)
  let up : Option (Nat × Nat) := if hi = 10 ^ k then some (10 ^ (k - 1), d + 1) else some (hi, d)
  if okLo && okHi then
    if v - lo * p < hi * p - v ∨ (v - lo * p = hi * p - v ∧ lo % 2 = 0) then some (lo, d) else up
  else if okLo then some (lo, d)
  else if okHi then up
  else none

/-- `Number::toString(x, radix 10)` for the Number values that `toFixed` passes
to it, those of magnitude at least `10^21`: `n > 21`, so the result is in
exponent form, the digits of the shortest `s`, a point after the first digit
when there are several, then `e+` and `n - 1`. -/
def Number.toString (x : Option Nat) : List Char :=
  match x with
  | none => "Infinity".toList
  | some v =>
    let d := (Nat.toDigits 10 v).length
    match (List.range d).findSome? (fun i => shortestDecimal v (i + 1)) with
    | none => []
    | some (s, n) =>
      let digits := Nat.toDigits 10 s
      let e := Nat.toDigits 10 (n - 1)
      if digits.length = 1 then digits ++ ['e', '+'] ++ e
      else digits.take 1 ++ ['.'] ++ digits.drop 1 ++ ['e', '+'] ++ e

/-- `Number.prototype.toFixed(fractionDigits)` on a finite number, after
ECMA-262: the sign is split off; a magnitude of `10^21` or more is rendered by
`Number::toString`; otherwise `n` is the integer nearest to `x × 10^f` (the
larger one on a tie), and its decimal digits, padded with zeros to `f + 1`
places, get a point before the last `f`.  (`fractionDigits` is at most 100.) -/
def toFixed (x : ℚ) (fractionDigits : Nat) : String :=
  let f := fractionDigits
  let s : List Char := if x < 0 then ['-'] else []
  let x : ℚ := if x < 0 then -x else x
  let m : List Char :=
    if x ≥ 10 ^ 21 then Number.toString (roundToDouble x)
    else
      let n : Nat := ⌊x * 10 ^ f + 1 / 2⌋.toNat
      let m : List Char := if n = 0 then ['0'] else Nat.toDigits 10 n
      if f ≠ 0 then
        let k := m.length
        let m := if k ≤ f then List.replicate (f + 1 - k) '0' ++ m else m
        let k := if k ≤ f then f + 1 else k
        m.take (k - f) ++ ['.'] ++ m.drop (k - f)
      else m
  String.mk (s ++ m)

/-! ## `renderChart`: categories and series -/

/-- One entry of the `series` array handed to ApexCharts. -/
structure Series where
  name : String
  type : String
  data : List String
deriving DecidableEq

/-- The part of the ApexCharts `options` object that depends on the data:
`series`, `chart.type` and `xaxis.categories`. -/
structure ChartOptions where
  series : List Series
  chartType : String
  categories : List String
deriving DecidableEq

/-- The local `categories` of `renderChart`.  `toLocaleDateString` stands for
`date.toLocaleDateString('en-US', { month: 'short', year: 'numeric' })` as a
function of the time value; it depends on the time zone of the host. -/
def categories (toLocaleDateString : Int → String) (period_months : Int)
    (periodsData : PeriodCollection) : List String :=
  (sortedPeriods period_months periodsData).map (fun period => toLocaleDateString period.end_date)

/-- The local `series` of `renderChart` once both `if` blocks have run.
`chartType` is the value of `this._config.chart_type`. -/
def series (chartType : String) (period_months : Int) (periodsData : PeriodCollection) :
    List Series :=
  let sortedPeriods := sortedPeriods period_months periodsData
  let series : List Series := []
  let series :=
    if chartType = "bar" ∨ chartType = "mixed" then
      series
        ++ [{ name := "Solar Generation", type := "column",
              data := sortedPeriods.map (fun p => toFixed p.solar_generation 1) }]
        ++ [{ name := "Grid Consumption", type := "column",
              data := sortedPeriods.map (fun p => toFixed p.grid_consumption 1) }]
        ++ [{ name := "Grid Injection", type := "column",
              data := sortedPeriods.map (fun p => toFixed p.grid_injection 1) }]
        ++ [{ name := "Solar Consumption", type := "column",
              data := sortedPeriods.map (fun p => toFixed p.solar_consumption 1) }]
    else series
  let series :=
    if chartType = "area" ∨ chartType = "mixed" then
      series
        ++ [{ name := "Cumulative Balance",
              type := if chartType = "mixed" then "line" else "area",
              data := sortedPeriods.map (fun p => toFixed p.cumulative_balance 1) }]
    else series
  series

/-- The method `renderChart(periodsData)`: the options it passes to
`new ApexCharts`.  `chartReady` tells whether the `#chart` element was found and
ApexCharts is loaded; without them the method returns before building anything. -/
def renderChart (toLocaleDateString : Int → String) (chartType : String) (period_months : Int)
    (chartReady : Bool) (periodsData : PeriodCollection) : Option ChartOptions :=
  if !chartReady then none
  else
    some { series := series chartType period_months periodsData,
           chartType := if chartType = "mixed" then "line" else chartType,
           categories := categories toLocaleDateString period_months periodsData }

/-! ## `renderMetrics` -/

/-- A `metric-card` element: its title, the class list of its `metric-value`
element, the value text and the unit text. -/
structure MetricCard where
  title : String
  valueClass : List String
  value : String
  unit : String
deriving DecidableEq

/-- What `renderMetrics` returns: the `no-data` element with its text, or the
`metrics-grid` element with its cards. -/
inductive MetricsMarkup where
  | noData (text : String)
  | metricsGrid (cards : List MetricCard)
deriving DecidableEq

/-- The local `latestPeriod` of `renderMetrics`:
`Object.values(periodsData).sort(descending)[0]`, `none` for `undefined`. -/
def latestPeriod (periodsData : PeriodCollection) : Option BillingPeriod :=
  (Array.sort (Object.values periodsData) compareDescending).head?

/-- The class chosen for the balance value:
`cumulative_balance >= 0 ? 'balance-positive' : 'balance-negative'`. -/
def balanceClass (cumulative_balance : ℚ) : String :=
  if cumulative_balance ≥ 0 then "balance-positive" else "balance-negative"

/-- The method `renderMetrics(periodsData)`.  Reading a field of an `undefined`
`latestPeriod` would throw a `TypeError`. -/
def renderMetrics (periodsData : PeriodCollection) : Except String MetricsMarkup :=
  if (Object.keys periodsData).length = 0 then
    .ok (.noData "No data available")
  else
    match latestPeriod periodsData with
    | none => .error "TypeError"
    | some latestPeriod =>
      .ok (.metricsGrid [
        { title := "Solar Generation", valueClass := ["metric-value"],
          value := toFixed latestPeriod.solar_generation 1, unit := "kWh" },
        { title := "Grid Consumption", valueClass := ["metric-value"],
          value := toFixed latestPeriod.grid_consumption 1, unit := "kWh" },
        { title := "Grid Injection", valueClass := ["metric-value"],
          value := toFixed latestPeriod.grid_injection 1, unit := "kWh" },
        { title := "Total Consumption", valueClass := ["metric-value"],
          value := toFixed latestPeriod.total_consumption 1, unit := "kWh" },
        { title := "Solar Consumption", valueClass := ["metric-value"],
          value := toFixed latestPeriod.solar_consumption 1, unit := "kWh" },
        { title := "Cumulative Balance",
          valueClass := ["metric-value", balanceClass latestPeriod.cumulative_balance],
          value := toFixed latestPeriod.cumulative_balance 1, unit := "kWh" }])

/-! ## `updateCard` -/

/-- What `updateCard` puts on the card below the header: the metrics markup,
whether the chart container holds the `no-data` placeholder instead of the
`#chart` element, and the chart options passed to ApexCharts, if any. -/
structure CardBody where
  metrics : MetricsMarkup
  chartPlaceholder : Bool
  chart : Option ChartOptions
deriving DecidableEq

/-- The method `updateCard()`, for a card whose `hass`, ApexCharts and entity
are present (otherwise it returns at once).  `periods_data` is
`entity.attributes.periods_data`, `none` when the attribute is absent;
`periods_data || {}` replaces that by the empty object.  The `#chart` element
is written exactly when the collection has a key, so `renderChart` finds it. -/
def updateCard (toLocaleDateString : Int → String) (chartType : String) (period_months : Int)
    (periods_data : Option PeriodCollection) : Except String CardBody :=
  let periodsData : PeriodCollection := periods_data.getD []
  match renderMetrics periodsData with
  | .error e => .error e
  | .ok metrics =>
    .ok { metrics := metrics,
          chartPlaceholder := decide ((Object.keys periodsData).length = 0),
          chart :=
            if (Object.keys periodsData).length > 0 then
              renderChart toLocaleDateString chartType period_months true periodsData
            else none }

/-! ## `setConfig` -/

/-- A card configuration object: each key the card knows, `none` when the
object does not have it. -/
structure CardConfig where
  type : Option String
  entities : Option (List String)
  title : Option String
  show_toolbar : Option Bool
  chart_type : Option String
  period_months : Option Int
deriving DecidableEq

/-- The fields of the card that `setConfig` writes. -/
structure CardState where
  _config : CardConfig
  _entities : List String
deriving DecidableEq

/-- The state the constructor leaves: `_config = {}` and `_entities = []`. -/
def constructor : CardState :=
  { _config := { type := none, entities := none, title := none, show_toolbar := none,
                 chart_type := none, period_months := none },
    _entities := [] }

/-- The object literal `{ show_toolbar: true, chart_type: "mixed",
period_months: 12, title: "Energy Generation Report", ...config }`: a key of
`config` overrides the default written before the spread. -/
def withDefaults (config : CardConfig) : CardConfig :=
  { type := config.type,
    entities := config.entities,
    title := config.title.orElse (fun _ => some "Energy Generation Report"),
    show_toolbar := config.show_toolbar.orElse (fun _ => some true),
    chart_type := config.chart_type.orElse (fun _ => some "mixed"),
    period_months := config.period_months.orElse (fun _ => some 12) }

/-- The method `setConfig(config)`, `config` being `none` when no object is
passed.  Returns the outcome (`.error message` for a thrown `Error`) and the
state of the card afterwards. -/
def setConfig (self : CardState) (config : Option CardConfig) : Except String Unit × CardState :=
  match config with
  | none => (.error "Invalid configuration", self)
  | some config =>
    let self := { self with _config := withDefaults config }
    match self._config.entities with
    | none => (.error "You need to define at least one energy generation report entity", self)
    | some entities =>
      if entities.length = 0 then
        (.error "You need to define at least one energy generation report entity", self)
      else
        (.ok (), { self with _entities := entities })

/-- The static method `getStubConfig()`. -/
def getStubConfig : CardConfig :=
  { type := some "custom:energy-generation-report-card",
    entities := some [],
    title := some "Energy Generation Report",
    show_toolbar := some true,
    chart_type := some "mixed",
    period_months := some 12 }

/-! ## Scenarios of the specification -/

/-- Period P1 of Scenario A; the time value is that of `2024-01-31`. -/
def periodP1 : BillingPeriod :=
  { end_date := 1706659200000, solar_generation := 100, grid_consumption := 50,
    grid_injection := 20, total_consumption := 80, solar_consumption := 60,
    cumulative_balance := 40 }

/-- Period P2 of Scenario B; the time value is that of `2024-02-29`. -/
def periodP2 : BillingPeriod :=
  { end_date := 1709164800000, solar_generation := 0, grid_consumption := 0,
    grid_injection := 0, total_consumption := 0, solar_consumption := 0,
    cumulative_balance := -5 }

/-- The collection of Scenario A. -/
def scenarioA : PeriodCollection := [("P1", periodP1)]

/-- The collection of Scenario B, listed newest first. -/
def scenarioB : PeriodCollection := [("P2", periodP2), ("P1", periodP1)]

/-- A configuration naming one entity and a chart type, nothing else. -/
def sampleConfig : CardConfig :=
  { type := none, entities := some ["sensor.energy_report"], title := none,
    show_toolbar := none, chart_type := some "bar", period_months := none }

/-- The six measured quantities of a period, in the order of the metric cards. -/
def BillingPeriod.measured (p : BillingPeriod) : List ℚ :=
  [p.solar_generation, p.grid_consumption, p.grid_injection, p.total_consumption,
   p.solar_consumption, p.cumulative_balance]

/-- The rendering that C10 describes, written from the claim and not from the
code: the quantity rounded to tenths (a half rounds away from zero), as a
minus sign for a negative quantity, the decimal digits of the whole part, a
point, and exactly one fractional digit. -/
def oneDecimal (x : ℚ) : String :=
  let tenths : Nat := (round (|x| * 10)).toNat
  String.mk ((if x < 0 then ['-'] else []) ++ Nat.toDigits 10 (tenths / 10)
    ++ ['.', Nat.digitChar (tenths % 10)])

/-- A period whose solar generation is `10^21` kWh, a number a double holds
exactly. -/
def hugePeriod : BillingPeriod :=
  { end_date := 1706659200000, solar_generation := 10 ^ 21, grid_consumption := 50,
    grid_injection := 20, total_consumption := 80, solar_consumption := 60,
    cumulative_balance := 40 }

/-- Two periods that close on the same day (`2024-01-31`) and differ in their
solar generation. -/
def tiedFirst : BillingPeriod :=
  { end_date := 1706659200000, solar_generation := 1, grid_consumption := 0,
    grid_injection := 0, total_consumption := 0, solar_consumption := 0,
    cumulative_balance := 0 }

/-- The second of the two periods that close on `2024-01-31`. -/
def tiedSecond : BillingPeriod :=
  { end_date := 1706659200000, solar_generation := 2, grid_consumption := 0,
    grid_injection := 0, total_consumption := 0, solar_consumption := 0,
    cumulative_balance := 0 }

/-- A collection whose two periods share their `end_date`, `tiedFirst` iterated
first. -/
def tiedCollection : PeriodCollection := [("A", tiedFirst), ("B", tiedSecond)]

/-- A card that was configured before: `_entities` holds one entity. -/
def configuredCard : CardState :=
  { _config := withDefaults sampleConfig, _entities := ["sensor.energy_report"] }

/-- The month labels of the two closing dates of the scenarios. -/
def scenarioLabel (date : Int) : String :=
  if date = 1706659200000 then "Jan 2024" else "Feb 2024"

/-- Scenario B with `hugePeriod` in the place of P1. -/
def hugeThenP2 : PeriodCollection := [("P1", hugePeriod), ("P2", periodP2)]

/-- The names of the series of `renderChart`, each with the record field it
charts. -/
def chartedFields : List (String × (BillingPeriod → ℚ)) :=
  [("Solar Generation", BillingPeriod.solar_generation),
   ("Grid Consumption", BillingPeriod.grid_consumption),
   ("Grid Injection", BillingPeriod.grid_injection),
   ("Solar Consumption", BillingPeriod.solar_consumption),
   ("Cumulative Balance", BillingPeriod.cumulative_balance)]

/-- The strings `values` render the numbers `quantities` position by position:
the lists have the same length, each string is `toFixed(1)` of the number at its
position, and it is the one-decimal rendering of that number exactly when the
number is below `10^21` in magnitude. -/
def RendersQuantities (values : List String) (quantities : List ℚ) : Prop :=
  List.Forall₂
    (fun v x => v = toFixed x 1 ∧ (v = oneDecimal x ↔ |x| < 10 ^ 21)) values quantities

/-! ## Sorting and slicing -/

theorem sort_perm {α : Type} (xs : List α) (comparefn : α → α → Int) :
    (Array.sort xs comparefn).Perm xs :=
  List.perm_insertionSort _ xs

theorem sort_ascending_sorted (xs : List BillingPeriod) :
    (Array.sort xs compareAscending).Sorted (fun a b => a.end_date ≤ b.end_date) := by
  haveI : IsTotal BillingPeriod (fun a b => compareAscending a b ≤ 0) :=
    ⟨fun a b => by simp only [compareAscending]; omega⟩
  haveI : IsTrans BillingPeriod (fun a b => compareAscending a b ≤ 0) :=
    ⟨fun a b c hab hbc => by simp only [compareAscending] at *; omega⟩
  have h := List.sorted_insertionSort (fun a b => compareAscending a b ≤ 0) xs
  refine List.Pairwise.imp ?_ h
  intro a b hab
  simp only [compareAscending] at hab
  omega

theorem sort_descending_sorted (xs : List BillingPeriod) :
    (Array.sort xs compareDescending).Sorted (fun a b => b.end_date ≤ a.end_date) := by
  haveI : IsTotal BillingPeriod (fun a b => compareDescending a b ≤ 0) :=
    ⟨fun a b => by simp only [compareDescending]; omega⟩
  haveI : IsTrans BillingPeriod (fun a b => compareDescending a b ≤ 0) :=
    ⟨fun a b c hab hbc => by simp only [compareDescending] at *; omega⟩
  have h := List.sorted_insertionSort (fun a b => compareDescending a b ≤ 0) xs
  refine List.Pairwise.imp ?_ h
  intro a b hab
  simp only [compareDescending] at hab
  omega

theorem sort_length {α : Type} (xs : List α) (comparefn : α → α → Int) :
    (Array.sort xs comparefn).length = xs.length :=
  (sort_perm xs comparefn).length_eq

/-- A negative `start` keeps the last `-start` elements, or all of them when
there are fewer. -/
theorem slice_neg {α : Type} (xs : List α) (n : Int) (h : 1 ≤ n) :
    Array.slice xs (-n) = xs.drop (xs.length - min n.toNat xs.length) := by
  unfold Array.slice
  have hk : (if -n < 0 then max ((xs.length : Int) + -n) 0 else min (-n) (xs.length : Int)).toNat
      = xs.length - min n.toNat xs.length := by
    rw [if_pos (by omega)]
    omega
  simp only [hk]

/-! ## C1 -/

/-- C1: for every collection and every integer `period_months ≥ 1`, the window
`sortedPeriods` that `renderChart` charts is the last `min(period_months, count)`
elements of the periods sorted ascending by `end_date` (a permutation of the
collection's periods in non-decreasing `end_date` order), in that order; its
length is `min(period_months, count)`, and when `period_months ≥ count` it is
the whole sorted list. -/
theorem C1_window_is_trailing_slice (periodsData : PeriodCollection) (period_months : Int)
    (h : 1 ≤ period_months) :
    (Array.sort (Object.values periodsData) compareAscending).Perm (Object.values periodsData) ∧
    (Array.sort (Object.values periodsData) compareAscending).Sorted
      (fun a b => a.end_date ≤ b.end_date) ∧
    sortedPeriods period_months periodsData =
      (Array.sort (Object.values periodsData) compareAscending).drop
        (periodsData.length - min period_months.toNat periodsData.length) ∧
    (sortedPeriods period_months periodsData).length = min period_months.toNat periodsData.length ∧
    ((periodsData.length : Int) ≤ period_months →
      sortedPeriods period_months periodsData =
        Array.sort (Object.values periodsData) compareAscending) := by
  have hlen : (Array.sort (Object.values periodsData) compareAscending).length
      = periodsData.length := by
    rw [sort_length]; simp [Object.values]
  have hw : sortedPeriods period_months periodsData =
      (Array.sort (Object.values periodsData) compareAscending).drop
        (periodsData.length - min period_months.toNat periodsData.length) := by
    unfold sortedPeriods
    rw [slice_neg _ _ h, hlen]
  refine ⟨sort_perm _ _, sort_ascending_sorted _, hw, ?_, ?_⟩
  · rw [hw, List.length_drop, hlen]; omega
  · intro hge
    rw [hw]
    have : periodsData.length - min period_months.toNat periodsData.length = 0 := by omega
    rw [this, List.drop_zero]

/-- C1 at Scenario B with `period_months = 1`: the window is `[P2]`. -/
theorem C1_window_is_trailing_slice_witness :
    (1 : Int) ≤ 1 ∧ sortedPeriods 1 scenarioB = [periodP2] ∧
    sortedPeriods 1 scenarioB =
      (Array.sort (Object.values scenarioB) compareAscending).drop
        (scenarioB.length - min (1 : Int).toNat scenarioB.length) :=
  ⟨by decide, by decide, (C1_window_is_trailing_slice scenarioB 1 (by decide)).2.2.1⟩

/-! ## C2 -/

/-- C2: for every non-empty collection, `latestPeriod`, the period that
`renderMetrics` selects, exists, is one of the collection's periods, and its
`end_date` is at least the `end_date` of every period of the collection. -/
theorem C2_latest_has_maximal_end_date (periodsData : PeriodCollection)
    (h : periodsData ≠ []) :
    ∃ p, latestPeriod periodsData = some p ∧ p ∈ Object.values periodsData ∧
      ∀ q ∈ Object.values periodsData, q.end_date ≤ p.end_date := by
  have hperm := sort_perm (Object.values periodsData) compareDescending
  have hsorted := sort_descending_sorted (Object.values periodsData)
  unfold latestPeriod
  cases hs : Array.sort (Object.values periodsData) compareDescending with
  | nil =>
    rw [hs] at hperm
    have : Object.values periodsData = [] := List.Perm.eq_nil hperm.symm
    simp [Object.values] at this
    exact absurd this h
  | cons p rest =>
    rw [hs] at hperm hsorted
    refine ⟨p, rfl, hperm.subset (List.mem_cons_self p rest), ?_⟩
    intro q hq
    have hq2 : q ∈ p :: rest := hperm.symm.subset hq
    rcases List.mem_cons.mp hq2 with rfl | hmem
    · exact le_refl _
    · exact List.rel_of_sorted_cons hsorted q hmem

/-- C2 at Scenario B: the latest period is P2. -/
theorem C2_latest_has_maximal_end_date_witness :
    scenarioB ≠ [] ∧ latestPeriod scenarioB = some periodP2 ∧
    ∃ p, latestPeriod scenarioB = some p ∧ p ∈ Object.values scenarioB ∧
      ∀ q ∈ Object.values scenarioB, q.end_date ≤ p.end_date :=
  ⟨by decide, by decide, C2_latest_has_maximal_end_date scenarioB (by decide)⟩

/-! ## Decimal digits -/

theorem toDigitsCore_append (b : Nat) (fuel n : Nat) (ds : List Char) :
    Nat.toDigitsCore b fuel n ds = Nat.toDigitsCore b fuel n [] ++ ds := by
  induction fuel generalizing n ds with
  | zero => simp [Nat.toDigitsCore]
  | succ fuel ih =>
    simp only [Nat.toDigitsCore]
    split_ifs with h
    · simp
    · rw [ih (n / b) (Nat.digitChar (n % b) :: ds), ih (n / b) [Nat.digitChar (n % b)]]
      simp

theorem toDigitsCore_fuel (b : Nat) (hb : 2 ≤ b) (f g n : Nat) (ds : List Char)
    (hf : n < f) (hg : n < g) :
    Nat.toDigitsCore b f n ds = Nat.toDigitsCore b g n ds := by
  induction f generalizing g n ds with
  | zero => omega
  | succ f ih =>
    cases g with
    | zero => omega
    | succ g =>
      simp only [Nat.toDigitsCore]
      split_ifs with h
      · rfl
      · have hpos : 0 < n := by
          rcases Nat.eq_zero_or_pos n with h0 | h0
          · subst h0; simp at h
          · exact h0
        have hlt : n / b < n := Nat.div_lt_self hpos (by omega)
        exact ih g (n / b) _ (by omega) (by omega)

theorem toDigits_of_lt_ten (n : Nat) (h : n < 10) :
    Nat.toDigits 10 n = [Nat.digitChar n] := by
  have h0 : n / 10 = 0 := Nat.div_eq_of_lt h
  have h1 : n % 10 = n := Nat.mod_eq_of_lt h
  simp [Nat.toDigits, Nat.toDigitsCore, h0, h1]

theorem toDigits_of_ten_le (n : Nat) (h : 10 ≤ n) :
    Nat.toDigits 10 n = Nat.toDigits 10 (n / 10) ++ [Nat.digitChar (n % 10)] := by
  have h0 : n / 10 ≠ 0 := by omega
  have hlt : n / 10 < n := by omega
  unfold Nat.toDigits
  rw [Nat.toDigitsCore]
  simp only [h0, if_false]
  rw [toDigitsCore_append]
  rw [toDigitsCore_fuel 10 (by decide) n (n / 10 + 1) (n / 10) [] hlt (by omega)]

theorem toDigits_ne_nil (n : Nat) : Nat.toDigits 10 n ≠ [] := by
  by_cases h : n < 10
  · rw [toDigits_of_lt_ten n h]; simp
  · rw [toDigits_of_ten_le n (by omega)]; simp

theorem digitChar_ne_point (d : Nat) (h : d < 10) :
    (Nat.digitChar d).isDigit = true ∧ Nat.digitChar d ≠ '.' := by
  interval_cases d <;> decide

theorem toDigits_all_digits (n : Nat) : ∀ c ∈ Nat.toDigits 10 n, c.isDigit = true := by
  induction n using Nat.strong_induction_on with
  | _ n ih =>
    by_cases h : n < 10
    · rw [toDigits_of_lt_ten n h]
      intro c hc
      simp only [List.mem_singleton] at hc
      subst hc
      exact (digitChar_ne_point n h).1
    · rw [toDigits_of_ten_le n (by omega)]
      intro c hc
      rcases List.mem_append.mp hc with hc | hc
      · exact ih (n / 10) (by omega) c hc
      · simp only [List.mem_singleton] at hc
        subst hc
        exact (digitChar_ne_point (n % 10) (Nat.mod_lt _ (by decide))).1

/-! ## `toFixed(1)` and the one-decimal rendering -/

/-- The integer `⌊y + 1/2⌋` that `toFixed` takes for `n` is the one ECMA-262
asks for: no integer is nearer to `y`, and an integer just as near is not
larger. -/
theorem floor_add_half_nearest (y : ℚ) (m : Int) :
    |((⌊y + 1 / 2⌋ : Int) : ℚ) - y| ≤ |(m : ℚ) - y| ∧
    (|(m : ℚ) - y| = |((⌊y + 1 / 2⌋ : Int) : ℚ) - y| → m ≤ ⌊y + 1 / 2⌋) := by
  have h1 : ((⌊y + 1 / 2⌋ : Int) : ℚ) ≤ y + 1 / 2 := Int.floor_le _
  have h2 : y + 1 / 2 < ((⌊y + 1 / 2⌋ : Int) : ℚ) + 1 := Int.lt_floor_add_one _
  generalize ⌊y + 1 / 2⌋ = n at h1 h2
  have hn : |(n : ℚ) - y| ≤ 1 / 2 := abs_le.mpr ⟨by linarith, by linarith⟩
  rcases lt_trichotomy m n with hlt | heq | hgt
  · have hc : (m : ℚ) ≤ (n : ℚ) - 1 := by
      have : m ≤ n - 1 := by omega
      exact_mod_cast this
    have hm : 1 / 2 ≤ |(m : ℚ) - y| := by
      rw [abs_of_nonpos (by linarith)]; linarith
    exact ⟨le_trans hn hm, fun _ => le_of_lt hlt⟩
  · subst heq
    exact ⟨le_refl _, fun _ => le_refl _⟩
  · have hc : (n : ℚ) + 1 ≤ (m : ℚ) := by
      have : n + 1 ≤ m := by omega
      exact_mod_cast this
    have hm : 1 / 2 < |(m : ℚ) - y| := by
      rw [abs_of_nonneg (by linarith)]; linarith
    refine ⟨le_trans hn (le_of_lt hm), fun he => ?_⟩
    rw [he] at hm
    exact absurd hn (not_le.mpr hm)


/-- Below `10^21` in magnitude, `toFixed(1)` is the one-decimal rendering. -/
theorem toFixed_one_eq_oneDecimal (x : ℚ) (hx : |x| < 10 ^ 21) :
    toFixed x 1 = oneDecimal x := by
  have hmag : (if x < 0 then -x else x) = |x| := by
    split_ifs with h
    · exact (abs_of_neg h).symm
    · exact (abs_of_nonneg (not_lt.mp h)).symm
  have hround : round (|x| * 10) = ⌊|x| * 10 ^ 1 + 1 / 2⌋ := by
    rw [round_eq, pow_one]
  unfold toFixed oneDecimal
  simp only [hmag, if_neg (not_le.mpr hx), hround]
  generalize ⌊|x| * 10 ^ 1 + 1 / 2⌋.toNat = n
  have hm : (if n = 0 then ['0'] else Nat.toDigits 10 n) = Nat.toDigits 10 n := by
    split_ifs with h0
    · subst h0; rfl
    · rfl
  simp only [hm, ne_eq, one_ne_zero, not_false_eq_true, if_true]
  by_cases hn : n < 10
  · have h0 : n / 10 = 0 := Nat.div_eq_of_lt hn
    have h1 : n % 10 = n := Nat.mod_eq_of_lt hn
    have hz : Nat.toDigits 10 0 = ['0'] := rfl
    rw [toDigits_of_lt_ten n hn, h0, h1, hz]
    simp
  · have hge : 10 ≤ n := by omega
    have hlen : 1 ≤ (Nat.toDigits 10 (n / 10)).length :=
      List.length_pos.mpr (toDigits_ne_nil (n / 10))
    rw [toDigits_of_ten_le n hge]
    have hk : ¬ (Nat.toDigits 10 (n / 10) ++ [Nat.digitChar (n % 10)]).length ≤ 1 := by
      simp only [List.length_append, List.length_singleton]; omega
    have hsub : (Nat.toDigits 10 (n / 10) ++ [Nat.digitChar (n % 10)]).length - 1
        = (Nat.toDigits 10 (n / 10)).length := by
      simp
    simp only [if_neg hk, hsub, List.take_left, List.drop_left]
    simp

/-- What `Number::toString` returns here is empty, in exponent form, or
`Infinity`. -/
theorem Number_toString_cases (r : Option Nat) :
    Number.toString r = [] ∨ 'e' ∈ Number.toString r ∨ 'I' ∈ Number.toString r := by
  cases r with
  | none => right; right; decide
  | some v =>
    simp only [Number.toString]
    cases List.findSome? (fun i => shortestDecimal v (i + 1))
        (List.range (Nat.toDigits 10 v).length) with
    | none => left; rfl
    | some sn =>
      right; left
      obtain ⟨s, n⟩ := sn
      simp only
      split_ifs <;> simp

/-- Digits followed by a point and a digit hold no other character. -/
theorem not_mem_decimal_of_not_digit (c : Char) (hdigit : c.isDigit = false) (hpoint : c ≠ '.')
    (n d : Nat) (hd : d < 10) : c ∉ Nat.toDigits 10 n ++ ['.', Nat.digitChar d] := by
  intro hmem
  rcases List.mem_append.mp hmem with h | h
  · have := toDigits_all_digits n c h
    rw [hdigit] at this
    cases this
  · simp only [List.mem_cons, List.mem_singleton, List.not_mem_nil, or_false] at h
    rcases h with h | h
    · exact hpoint h
    · have := (digitChar_ne_point d hd).1
      rw [← h, hdigit] at this
      cases this

/-- From `10^21` on, `toFixed(1)` is not the one-decimal rendering. -/
theorem toFixed_one_ne_oneDecimal (x : ℚ) (hx : 10 ^ 21 ≤ |x|) :
    toFixed x 1 ≠ oneDecimal x := by
  have hmag : (if x < 0 then -x else x) = |x| := by
    split_ifs with h
    · exact (abs_of_neg h).symm
    · exact (abs_of_nonneg (not_lt.mp h)).symm
  intro heq
  unfold toFixed oneDecimal at heq
  simp only [hmag, ge_iff_le, if_pos hx] at heq
  have hl := congrArg String.data heq
  simp only [List.append_assoc] at hl
  have hm := List.append_cancel_left hl
  have hd : (round (|x| * 10)).toNat % 10 < 10 := Nat.mod_lt _ (by decide)
  rcases Number_toString_cases (roundToDouble |x|) with h | h | h
  · rw [hm] at h
    simp at h
  · rw [hm] at h
    exact not_mem_decimal_of_not_digit 'e' (by decide) (by decide) _ _ hd h
  · rw [hm] at h
    exact not_mem_decimal_of_not_digit 'I' (by decide) (by decide) _ _ hd h

/-- `toFixed(1)` is the one-decimal rendering exactly below `10^21`. -/
theorem toFixed_one_eq_oneDecimal_iff (x : ℚ) :
    toFixed x 1 = oneDecimal x ↔ |x| < 10 ^ 21 := by
  constructor
  · intro h
    by_contra hcon
    exact toFixed_one_ne_oneDecimal x (not_lt.mp hcon) h
  · exact toFixed_one_eq_oneDecimal x


/-- The `toFixed(1)` strings of a list of numbers render it. -/
theorem rendersQuantities_map (quantities : List ℚ) :
    RendersQuantities (quantities.map (fun x => toFixed x 1)) quantities := by
  unfold RendersQuantities
  induction quantities with
  | nil => exact List.Forall₂.nil
  | cons x xs ih =>
    exact List.Forall₂.cons ⟨rfl, toFixed_one_eq_oneDecimal_iff x⟩ ih

/-- The `toFixed(1)` strings of one field over a window render that field. -/
theorem rendersQuantities_field (field : BillingPeriod → ℚ) (window : List BillingPeriod) :
    RendersQuantities (window.map (fun p => toFixed (field p) 1)) (window.map field) := by
  have h := rendersQuantities_map (window.map field)
  rwa [List.map_map] at h

/-- The retained window holds periods of the collection only. -/
theorem sortedPeriods_subset (period_months : Int) (periodsData : PeriodCollection)
    (p : BillingPeriod) (hp : p ∈ sortedPeriods period_months periodsData) :
    p ∈ Object.values periodsData := by
  unfold sortedPeriods Array.slice at hp
  exact (sort_perm _ _).subset (List.mem_of_mem_drop hp)

/-- The one-decimal rendering ends in a point and a single digit, has no other
point, and the tenths it shows are within a twentieth of the magnitude. -/
theorem oneDecimal_shape (x : ℚ) :
    ∃ whole : List Char, ∃ d : Char,
      (oneDecimal x).data = whole ++ ['.', d] ∧ d.isDigit = true ∧ '.' ∉ whole ∧
      abs (((round (|x| * 10) : Int) : ℚ) / 10 - |x|) ≤ 1 / 20 := by
  refine ⟨(if x < 0 then ['-'] else []) ++ Nat.toDigits 10 ((round (|x| * 10)).toNat / 10),
    Nat.digitChar ((round (|x| * 10)).toNat % 10), rfl, ?_, ?_, ?_⟩
  · exact (digitChar_ne_point _ (Nat.mod_lt _ (by decide))).1
  · intro hmem
    rcases List.mem_append.mp hmem with h | h
    · split_ifs at h
      · simp only [List.mem_singleton] at h
        exact absurd h (by decide)
      · simp at h
    · have := toDigits_all_digits _ _ h
      exact absurd this (by decide)
  · have h := abs_sub_round (|x| * 10)
    have h2 : ((round (|x| * 10) : Int) : ℚ) / 10 - |x|
        = -((|x| * 10 - (round (|x| * 10) : Int)) / 10) := by ring
    rw [h2, abs_neg, abs_div]
    have h10 : |(10 : ℚ)| = 10 := abs_of_pos (by norm_num)
    rw [h10, div_le_iff₀ (by norm_num)]
    calc |(|x| * 10 - (round (|x| * 10) : Int))| ≤ 1 / 2 := h
      _ = 1 / 20 * 10 := by norm_num

/-! ## C3 -/

/-- Every series built by `renderChart` maps the field that goes with its name
over the retained window. -/
theorem series_data_eq_map (chartType : String) (period_months : Int)
    (periodsData : PeriodCollection) (s : Series)
    (hs : s ∈ series chartType period_months periodsData) :
    ∃ field : BillingPeriod → ℚ,
      (s.name, field) ∈ chartedFields ∧
      s.data = (sortedPeriods period_months periodsData).map (fun p => toFixed (field p) 1) := by
  unfold series at hs
  simp only [List.nil_append, List.append_assoc, List.singleton_append] at hs
  split_ifs at hs <;> simp only [List.mem_cons, List.mem_append, List.mem_singleton,
    List.not_mem_nil, or_false, false_or] at hs
  all_goals
    first
    | exact absurd hs id
    | (casesm* _ ∨ _ <;> subst s <;> exact ⟨_, by simp [chartedFields], rfl⟩)

/-- C3: alignment.  For every collection, `period_months` and chart type, each
series built by `renderChart` has as many data values as there are categories,
and for every index `j` of the retained window `categories[j]` is the label of
the window's `j`-th period and `data[j]` is the formatted value, in that same
`j`-th period, of the record field that goes with the name of the series. -/
theorem C3_series_aligned_with_categories (toLocaleDateString : Int → String)
    (chartType : String) (period_months : Int) (periodsData : PeriodCollection)
    (s : Series) (hs : s ∈ series chartType period_months periodsData) :
    s.data.length = (categories toLocaleDateString period_months periodsData).length ∧
    ∃ field : BillingPeriod → ℚ,
      (s.name, field) ∈ chartedFields ∧
      ∀ (j : Nat) (hj : j < (sortedPeriods period_months periodsData).length),
        (categories toLocaleDateString period_months periodsData)[j]? =
          some (toLocaleDateString ((sortedPeriods period_months periodsData)[j]).end_date) ∧
        s.data[j]? = some (toFixed (field ((sortedPeriods period_months periodsData)[j])) 1) := by
  obtain ⟨field, hfield, hdata⟩ := series_data_eq_map chartType period_months periodsData s hs
  refine ⟨by simp [hdata, categories], field, hfield, ?_⟩
  intro j hj
  simp [hdata, categories, List.getElem?_map, List.getElem?_eq_getElem hj]

/-- C3 at Scenario B, mixed chart, twelve months: the window is `[P1, P2]`, the
categories are those of P1 and P2 in this order, and the line series holds the
balance of P1 and then that of P2. -/
theorem C3_series_aligned_with_categories_witness :
    sortedPeriods 12 scenarioB = [periodP1, periodP2] ∧
    categories scenarioLabel 12 scenarioB = ["Jan 2024", "Feb 2024"] ∧
    ({ name := "Cumulative Balance", type := "line", data := ["40.0", "-5.0"] } : Series)
      ∈ series "mixed" 12 scenarioB ∧
    (["40.0", "-5.0"] : List String).length = (categories scenarioLabel 12 scenarioB).length ∧
    ∃ field : BillingPeriod → ℚ,
      ("Cumulative Balance", field) ∈ chartedFields ∧
      ∀ (j : Nat) (hj : j < (sortedPeriods 12 scenarioB).length),
        (categories scenarioLabel 12 scenarioB)[j]? =
          some (scenarioLabel ((sortedPeriods 12 scenarioB)[j]).end_date) ∧
        (["40.0", "-5.0"] : List String)[j]? =
          some (toFixed (field ((sortedPeriods 12 scenarioB)[j])) 1) :=
  ⟨by decide, by decide, by decide!,
   C3_series_aligned_with_categories scenarioLabel "mixed" 12 scenarioB
      { name := "Cumulative Balance", type := "line", data := ["40.0", "-5.0"] } (by decide!)⟩

/-! ## C4 -/

/-- What `renderChart` builds for the chart types `bar`, `area` and `mixed`. -/
theorem series_bar (period_months : Int) (periodsData : PeriodCollection) :
    series "bar" period_months periodsData =
      [{ name := "Solar Generation", type := "column",
         data := (sortedPeriods period_months periodsData).map
           (fun p => toFixed p.solar_generation 1) },
       { name := "Grid Consumption", type := "column",
         data := (sortedPeriods period_months periodsData).map
           (fun p => toFixed p.grid_consumption 1) },
       { name := "Grid Injection", type := "column",
         data := (sortedPeriods period_months periodsData).map
           (fun p => toFixed p.grid_injection 1) },
       { name := "Solar Consumption", type := "column",
         data := (sortedPeriods period_months periodsData).map
           (fun p => toFixed p.solar_consumption 1) }] := by
  have h1 : ("bar" : String) ≠ "mixed" := by decide
  have h2 : ("bar" : String) ≠ "area" := by decide
  simp [series, h1, h2]

theorem series_area (period_months : Int) (periodsData : PeriodCollection) :
    series "area" period_months periodsData =
      [{ name := "Cumulative Balance", type := "area",
         data := (sortedPeriods period_months periodsData).map
           (fun p => toFixed p.cumulative_balance 1) }] := by
  have h1 : ("area" : String) ≠ "mixed" := by decide
  have h2 : ("area" : String) ≠ "bar" := by decide
  simp [series, h1, h2]

theorem series_mixed (period_months : Int) (periodsData : PeriodCollection) :
    series "mixed" period_months periodsData =
      [{ name := "Solar Generation", type := "column",
         data := (sortedPeriods period_months periodsData).map
           (fun p => toFixed p.solar_generation 1) },
       { name := "Grid Consumption", type := "column",
         data := (sortedPeriods period_months periodsData).map
           (fun p => toFixed p.grid_consumption 1) },
       { name := "Grid Injection", type := "column",
         data := (sortedPeriods period_months periodsData).map
           (fun p => toFixed p.grid_injection 1) },
       { name := "Solar Consumption", type := "column",
         data := (sortedPeriods period_months periodsData).map
           (fun p => toFixed p.solar_consumption 1) },
       { name := "Cumulative Balance", type := "line",
         data := (sortedPeriods period_months periodsData).map
           (fun p => toFixed p.cumulative_balance 1) }] := by
  simp [series]

/-- C4 as stated fails: for a solar generation of `10^21` the bar data are not
the one-decimal formatting of the four fields; the Solar Generation series
holds `1e+21`, the one-decimal formatting is `1000000000000000000000.0`. -/
theorem C4_bar_series_counterexample :
    (series "bar" 12 [("P1", hugePeriod)]).map (fun s => s.data) ≠
      [[oneDecimal hugePeriod.solar_generation], [oneDecimal hugePeriod.grid_consumption],
       [oneDecimal hugePeriod.grid_injection], [oneDecimal hugePeriod.solar_consumption]] ∧
    (series "bar" 12 [("P1", hugePeriod)]).map (fun s => s.data) =
      [["1e+21"], ["50.0"], ["20.0"], ["60.0"]] ∧
    oneDecimal hugePeriod.solar_generation = "1000000000000000000000.0" := by
  decide!

/-- C4, amended: for chart type `bar`, `renderChart` builds exactly four series,
all of type `column`, named Solar Generation, Grid Consumption, Grid Injection
and Solar Consumption in this order; the data of each hold, position by
position over the retained window, the `toFixed(1)` string of
`solar_generation`, `grid_consumption`, `grid_injection` and
`solar_consumption` respectively, which is the one-decimal formatting of the
value exactly when its magnitude is below `10^21`; in Scenario A the data are
`["100.0"]`, `["50.0"]`, `["20.0"]`, `["60.0"]`. -/
theorem C4_bar_series (period_months : Int) (periodsData : PeriodCollection) :
    (series "bar" period_months periodsData).map (fun s => (s.name, s.type)) =
      [("Solar Generation", "column"), ("Grid Consumption", "column"),
       ("Grid Injection", "column"), ("Solar Consumption", "column")] ∧
    List.Forall₂
      (fun s field =>
        RendersQuantities s.data ((sortedPeriods period_months periodsData).map field))
      (series "bar" period_months periodsData)
      [BillingPeriod.solar_generation, BillingPeriod.grid_consumption,
       BillingPeriod.grid_injection, BillingPeriod.solar_consumption] ∧
    (series "bar" 12 scenarioA).map (fun s => s.data) =
      [["100.0"], ["50.0"], ["20.0"], ["60.0"]] := by
  refine ⟨?_, ?_, by decide!⟩
  · rw [series_bar]; rfl
  · rw [series_bar]
    exact List.Forall₂.cons (rendersQuantities_field _ _)
      (List.Forall₂.cons (rendersQuantities_field _ _)
        (List.Forall₂.cons (rendersQuantities_field _ _)
          (List.Forall₂.cons (rendersQuantities_field _ _) List.Forall₂.nil)))

/-! ## C5 -/

/-- C5: the series list built for `mixed` is the list built for `bar` followed
by the list built for `area` with the type `area` replaced by `line`; the
`area` list is the single series Cumulative Balance of type `area` holding the
`toFixed(1)` rendering of `cumulative_balance` of each retained period; so
`mixed` has five series, the last of which is the line series. -/
theorem C5_mixed_is_bar_then_line (period_months : Int) (periodsData : PeriodCollection) :
    series "mixed" period_months periodsData =
      series "bar" period_months periodsData ++
        (series "area" period_months periodsData).map
          (fun s => if s.type = "area" then { s with type := "line" } else s) ∧
    series "area" period_months periodsData =
      [{ name := "Cumulative Balance", type := "area",
         data := (sortedPeriods period_months periodsData).map
           (fun p => toFixed p.cumulative_balance 1) }] ∧
    (series "mixed" period_months periodsData).length = 5 ∧
    (series "mixed" period_months periodsData).getLast? =
      some { name := "Cumulative Balance", type := "line",
             data := (sortedPeriods period_months periodsData).map
               (fun p => toFixed p.cumulative_balance 1) } := by
  refine ⟨?_, series_area period_months periodsData, ?_, ?_⟩
  · rw [series_mixed, series_bar, series_area]
    simp
  · rw [series_mixed]; rfl
  · rw [series_mixed]; rfl

/-! ## C6 -/

/-- C6 as stated fails: on the empty collection the series construction of
`renderChart` does not give `series = []`; for `bar` it gives four series (each
with empty data), for `area` one and for `mixed` five. -/
theorem C6_empty_collection_counterexample :
    series "bar" 12 [] ≠ [] ∧ (series "bar" 12 []).length = 4 ∧
    (series "area" 12 []).length = 1 ∧ (series "mixed" 12 []).length = 5 := by
  decide!

/-- C6, amended: for an empty collection, present or absent, `updateCard` shows
the placeholders and does not call `renderChart`, so no chart is built.  The
series/category construction of `renderChart` applied to the empty collection
returns normally for every chart type and `period_months`, with
`categories = []` and the usual named series, each with `data = []`: four for
`bar`, one for `area`, five for `mixed`. -/
theorem C6_empty_collection (toLocaleDateString : Int → String) (chartType : String)
    (period_months : Int) :
    updateCard toLocaleDateString chartType period_months (some []) =
      .ok { metrics := .noData "No data available", chartPlaceholder := true, chart := none } ∧
    updateCard toLocaleDateString chartType period_months none =
      .ok { metrics := .noData "No data available", chartPlaceholder := true, chart := none } ∧
    renderChart toLocaleDateString chartType period_months true [] =
      some { series := series chartType period_months [],
             chartType := if chartType = "mixed" then "line" else chartType,
             categories := [] } ∧
    (series chartType period_months []).map (fun s => s.data) =
      List.replicate (series chartType period_months []).length [] ∧
    series "bar" period_months [] =
      [{ name := "Solar Generation", type := "column", data := [] },
       { name := "Grid Consumption", type := "column", data := [] },
       { name := "Grid Injection", type := "column", data := [] },
       { name := "Solar Consumption", type := "column", data := [] }] ∧
    series "area" period_months [] =
      [{ name := "Cumulative Balance", type := "area", data := [] }] ∧
    series "mixed" period_months [] =
      [{ name := "Solar Generation", type := "column", data := [] },
       { name := "Grid Consumption", type := "column", data := [] },
       { name := "Grid Injection", type := "column", data := [] },
       { name := "Solar Consumption", type := "column", data := [] },
       { name := "Cumulative Balance", type := "line", data := [] }] := by
  have hw : sortedPeriods period_months [] = [] := by
    simp [sortedPeriods, Object.values, Array.sort, Array.slice]
  refine ⟨rfl, rfl, ?_, ?_, ?_, ?_, ?_⟩
  · simp [renderChart, categories, hw]
  · unfold series
    rw [hw]
    split_ifs <;> simp [List.replicate]
  · rw [series_bar, hw]; rfl
  · rw [series_area, hw]; rfl
  · rw [series_mixed, hw]; rfl

/-! ## C7 -/

/-- A selected latest period means the collection has a key. -/
theorem keys_ne_zero_of_latest (periodsData : PeriodCollection) (p : BillingPeriod)
    (h : latestPeriod periodsData = some p) : (Object.keys periodsData).length ≠ 0 := by
  intro h0
  have : periodsData = [] := by
    simpa [Object.keys] using h0
  subst this
  simp [latestPeriod, Object.values, Array.sort] at h

/-- The markup `renderMetrics` returns once it has selected the period `p`. -/
theorem renderMetrics_of_latest (periodsData : PeriodCollection) (p : BillingPeriod)
    (h : latestPeriod periodsData = some p) :
    renderMetrics periodsData = .ok (.metricsGrid [
      { title := "Solar Generation", valueClass := ["metric-value"],
        value := toFixed p.solar_generation 1, unit := "kWh" },
      { title := "Grid Consumption", valueClass := ["metric-value"],
        value := toFixed p.grid_consumption 1, unit := "kWh" },
      { title := "Grid Injection", valueClass := ["metric-value"],
        value := toFixed p.grid_injection 1, unit := "kWh" },
      { title := "Total Consumption", valueClass := ["metric-value"],
        value := toFixed p.total_consumption 1, unit := "kWh" },
      { title := "Solar Consumption", valueClass := ["metric-value"],
        value := toFixed p.solar_consumption 1, unit := "kWh" },
      { title := "Cumulative Balance",
        valueClass := ["metric-value", balanceClass p.cumulative_balance],
        value := toFixed p.cumulative_balance 1, unit := "kWh" }]) := by
  have hk := keys_ne_zero_of_latest periodsData p h
  simp only [renderMetrics, if_neg hk, h]

/-- C7: when `renderMetrics` has selected the period `p`, the sixth card is
Cumulative Balance, and its value carries the class `balance-negative` exactly
when `p.cumulative_balance < 0` and `balance-positive` exactly when it is not;
in particular a balance of zero is classified positive. -/
theorem C7_balance_classification (periodsData : PeriodCollection) (p : BillingPeriod)
    (h : latestPeriod periodsData = some p) :
    ∃ cards card, renderMetrics periodsData = .ok (.metricsGrid cards) ∧
      cards[5]? = some card ∧ card.title = "Cumulative Balance" ∧
      (card.valueClass = ["metric-value", "balance-negative"] ↔ p.cumulative_balance < 0) ∧
      (card.valueClass = ["metric-value", "balance-positive"] ↔ ¬ p.cumulative_balance < 0) ∧
      (p.cumulative_balance = 0 → card.valueClass = ["metric-value", "balance-positive"]) := by
  have hneq : ("balance-positive" : String) ≠ "balance-negative" := by decide
  refine ⟨_, { title := "Cumulative Balance",
               valueClass := ["metric-value", balanceClass p.cumulative_balance],
               value := toFixed p.cumulative_balance 1, unit := "kWh" },
    renderMetrics_of_latest periodsData p h, rfl, rfl, ?_, ?_, ?_⟩
  · by_cases hb : p.cumulative_balance < 0
    · simp [balanceClass, hb, not_le.mpr hb]
    · simp [balanceClass, hb, not_lt.mp hb, hneq]
  · by_cases hb : p.cumulative_balance < 0
    · simp [balanceClass, hb, not_le.mpr hb, hneq.symm]
    · simp [balanceClass, hb, not_lt.mp hb]
  · intro h0
    simp [balanceClass, h0]

/-- C7 at Scenario B: the latest period P2 has balance `-5`, classified
negative. -/
theorem C7_balance_classification_witness :
    latestPeriod scenarioB = some periodP2 ∧
    ∃ cards card, renderMetrics scenarioB = .ok (.metricsGrid cards) ∧
      cards[5]? = some card ∧ card.title = "Cumulative Balance" ∧
      (card.valueClass = ["metric-value", "balance-negative"] ↔ periodP2.cumulative_balance < 0) ∧
      (card.valueClass = ["metric-value", "balance-positive"] ↔
        ¬ periodP2.cumulative_balance < 0) ∧
      (periodP2.cumulative_balance = 0 →
        card.valueClass = ["metric-value", "balance-positive"]) :=
  ⟨by decide, C7_balance_classification scenarioB periodP2 (by decide)⟩

/-! ## C8 -/

/-- On a non-empty collection the descending sort has a first element. -/
theorem latestPeriod_exists (periodsData : PeriodCollection) (h : periodsData ≠ []) :
    ∃ p, latestPeriod periodsData = some p := by
  unfold latestPeriod
  cases hs : Array.sort (Object.values periodsData) compareDescending with
  | nil =>
    have hlen := sort_length (Object.values periodsData) compareDescending
    rw [hs] at hlen
    have : periodsData = [] := by
      simpa [Object.values] using hlen.symm
    exact absurd this h
  | cons p rest => exact ⟨p, rfl⟩

/-- C8: `renderMetrics` returns the `no-data` element exactly when the
collection has no periods, and it returns it (does not throw) on the empty
collection; an absent `periods_data` attribute is replaced by the empty
collection in `updateCard`, whose metrics are then the `no-data` element; and
on every non-empty collection `renderMetrics` returns a grid of exactly six
cards titled Solar Generation, Grid Consumption, Grid Injection, Total
Consumption, Solar Consumption, Cumulative Balance, in that order, each with
unit kWh. -/
theorem C8_metrics_empty_or_six_cards (toLocaleDateString : Int → String) (chartType : String)
    (period_months : Int) (periodsData : PeriodCollection) :
    ((∃ text, renderMetrics periodsData = .ok (.noData text)) ↔ periodsData = []) ∧
    renderMetrics [] = .ok (.noData "No data available") ∧
    (∃ body, updateCard toLocaleDateString chartType period_months none = .ok body ∧
      body.metrics = .noData "No data available") ∧
    (periodsData ≠ [] →
      ∃ cards, renderMetrics periodsData = .ok (.metricsGrid cards) ∧
        cards.length = 6 ∧
        cards.map (fun c => c.title) =
          ["Solar Generation", "Grid Consumption", "Grid Injection", "Total Consumption",
           "Solar Consumption", "Cumulative Balance"] ∧
        cards.map (fun c => c.unit) = ["kWh", "kWh", "kWh", "kWh", "kWh", "kWh"]) := by
  have hne : periodsData ≠ [] →
      ∃ cards, renderMetrics periodsData = .ok (.metricsGrid cards) ∧
        cards.length = 6 ∧
        cards.map (fun c => c.title) =
          ["Solar Generation", "Grid Consumption", "Grid Injection", "Total Consumption",
           "Solar Consumption", "Cumulative Balance"] ∧
        cards.map (fun c => c.unit) = ["kWh", "kWh", "kWh", "kWh", "kWh", "kWh"] := by
    intro h
    obtain ⟨p, hp⟩ := latestPeriod_exists periodsData h
    exact ⟨_, renderMetrics_of_latest periodsData p hp, rfl, rfl, rfl⟩
  refine ⟨⟨?_, ?_⟩, rfl, ⟨_, rfl, rfl⟩, hne⟩
  · rintro ⟨text, htext⟩
    by_contra hcon
    obtain ⟨cards, hcards, -⟩ := hne hcon
    rw [hcards] at htext
    cases htext
  · rintro rfl
    exact ⟨_, rfl⟩

/-- C8 at Scenario A: a grid of six cards. -/
theorem C8_metrics_empty_or_six_cards_witness :
    scenarioA ≠ [] ∧
    ∃ cards, renderMetrics scenarioA = .ok (.metricsGrid cards) ∧
      cards.length = 6 ∧
      cards.map (fun c => c.title) =
        ["Solar Generation", "Grid Consumption", "Grid Injection", "Total Consumption",
         "Solar Consumption", "Cumulative Balance"] ∧
      cards.map (fun c => c.unit) = ["kWh", "kWh", "kWh", "kWh", "kWh", "kWh"] :=
  ⟨by decide,
   (C8_metrics_empty_or_six_cards (fun _ => "Jan 2024") "bar" 12 scenarioA).2.2.2 (by decide)⟩

/-! ## C9 -/

/-- C9: `setConfig` throws exactly when the configuration is absent, or has no
`entities` key, or has an empty `entities` list.  For a configuration with a
non-empty `entities` list it returns normally, stores that list in `_entities`,
and stores in `_config` an object in which every key of the caller keeps the
caller's value and each of `show_toolbar`, `chart_type`, `period_months` and
`title` that the caller left out has its default (`true`, `"mixed"`, `12`,
`"Energy Generation Report"`). -/
theorem C9_setConfig_rejects_iff_no_entity (self : CardState) (config : Option CardConfig) :
    ((∃ message, (setConfig self config).1 = .error message) ↔
      (config = none ∨
        ∃ c, config = some c ∧ (c.entities = none ∨ c.entities = some []))) ∧
    (∀ c e es, config = some c → c.entities = some (e :: es) →
      (setConfig self config).1 = .ok () ∧
      (setConfig self config).2._entities = e :: es ∧
      (∀ v, c.type = some v → (setConfig self config).2._config.type = some v) ∧
      (∀ v, c.entities = some v → (setConfig self config).2._config.entities = some v) ∧
      (∀ v, c.title = some v → (setConfig self config).2._config.title = some v) ∧
      (∀ v, c.show_toolbar = some v → (setConfig self config).2._config.show_toolbar = some v) ∧
      (∀ v, c.chart_type = some v → (setConfig self config).2._config.chart_type = some v) ∧
      (∀ v, c.period_months = some v →
        (setConfig self config).2._config.period_months = some v) ∧
      (c.show_toolbar = none → (setConfig self config).2._config.show_toolbar = some true) ∧
      (c.chart_type = none → (setConfig self config).2._config.chart_type = some "mixed") ∧
      (c.period_months = none → (setConfig self config).2._config.period_months = some 12) ∧
      (c.title = none →
        (setConfig self config).2._config.title = some "Energy Generation Report")) := by
  constructor
  · cases config with
    | none => simp [setConfig]
    | some c =>
      cases he : c.entities with
      | none => simp [setConfig, withDefaults, he]
      | some es =>
        cases es with
        | nil => simp [setConfig, withDefaults, he]
        | cons e es => simp [setConfig, withDefaults, he]
  · intro c e es hc he
    subst hc
    have hres : setConfig self (some c) =
        (.ok (), { _config := withDefaults c, _entities := e :: es }) := by
      simp [setConfig, withDefaults, he]
    rw [hres]
    refine ⟨rfl, rfl, ?_, ?_, ?_, ?_, ?_, ?_, ?_, ?_, ?_, ?_⟩
    · intro v hv; simp [withDefaults, hv]
    · intro v hv; simp [withDefaults, hv]
    · intro v hv; simp [withDefaults, hv]
    · intro v hv; simp [withDefaults, hv]
    · intro v hv; simp [withDefaults, hv]
    · intro v hv; simp [withDefaults, hv]
    · intro hv; simp [withDefaults, hv]
    · intro hv; simp [withDefaults, hv]
    · intro hv; simp [withDefaults, hv]
    · intro hv; simp [withDefaults, hv]

/-- C9 at a configuration that names one entity and a chart type: accepted, the
entity list stored, the chart type kept and the title defaulted. -/
theorem C9_setConfig_rejects_iff_no_entity_witness :
    (setConfig constructor (some sampleConfig)).1 = .ok () ∧
    (setConfig constructor (some sampleConfig)).2._entities = ["sensor.energy_report"] ∧
    (setConfig constructor (some sampleConfig)).2._config.chart_type = some "bar" ∧
    (setConfig constructor (some sampleConfig)).2._config.title
      = some "Energy Generation Report" :=
  have h := (C9_setConfig_rejects_iff_no_entity constructor (some sampleConfig)).2
    sampleConfig "sensor.energy_report" [] rfl rfl
  ⟨h.1, h.2.1, h.2.2.2.2.2.2.1 "bar" rfl, h.2.2.2.2.2.2.2.2.2.2.2 rfl⟩

/-! ## C10 -/

/-- C10 as stated fails: for the measured quantity `10^21`, `toFixed(1)`, and
with it the data value that `renderChart` places in the Solar Generation
series, is `1e+21`, in exponent form and with no fractional digit, not the
one-decimal rendering `1000000000000000000000.0`. -/
theorem C10_exponent_form_counterexample :
    toFixed (10 ^ 21) 1 = "1e+21" ∧
    oneDecimal (10 ^ 21) = "1000000000000000000000.0" ∧
    toFixed (10 ^ 21) 1 ≠ oneDecimal (10 ^ 21) ∧
    (series "bar" 12 [("P1", hugePeriod)]).map (fun s => s.data) =
      [["1e+21"], ["50.0"], ["20.0"], ["60.0"]] := by
  decide!

/-- C10, amended: for every chart type, window and collection, each data array
built by `renderChart` renders, position by position over the retained window,
the record field that goes with the name of its series, and the six values
shown by `renderMetrics` render the six measured quantities of the latest
period: each value is the `toFixed(1)` string of its quantity, and it is the
one-decimal rendering of that quantity exactly when the quantity is below
`10^21` in magnitude.  The one-decimal rendering is the quantity rounded to the
nearest tenth, written with exactly one digit after its only point. -/
theorem C10_values_have_one_decimal (chartType : String) (period_months : Int)
    (periodsData : PeriodCollection) :
    (∀ s ∈ series chartType period_months periodsData,
      ∃ field : BillingPeriod → ℚ,
        (s.name, field) ∈ chartedFields ∧
        RendersQuantities s.data ((sortedPeriods period_months periodsData).map field)) ∧
    (∀ p, latestPeriod periodsData = some p →
      ∃ cards, renderMetrics periodsData = .ok (.metricsGrid cards) ∧
        RendersQuantities (cards.map (fun c => c.value)) p.measured) ∧
    (∀ x : ℚ, ∃ whole : List Char, ∃ d : Char,
      (oneDecimal x).data = whole ++ ['.', d] ∧ d.isDigit = true ∧ '.' ∉ whole ∧
      abs (((round (|x| * 10) : Int) : ℚ) / 10 - |x|) ≤ 1 / 20) := by
  refine ⟨?_, ?_, oneDecimal_shape⟩
  · intro s hs
    obtain ⟨field, hfield, hdata⟩ :=
      series_data_eq_map chartType period_months periodsData s hs
    refine ⟨field, hfield, ?_⟩
    rw [hdata]
    exact rendersQuantities_field field _
  · intro p hp
    refine ⟨_, renderMetrics_of_latest periodsData p hp, ?_⟩
    exact rendersQuantities_map p.measured

/-- C10 at `hugeThenP2`, bar chart, twelve months: the Solar Generation series
holds `1e+21` for the quantity `10^21`, which is not its one-decimal rendering,
and `0.0` for the quantity `0`, which is. -/
theorem C10_values_have_one_decimal_witness :
    sortedPeriods 12 hugeThenP2 = [hugePeriod, periodP2] ∧
    ("1e+21" : String) ≠ oneDecimal hugePeriod.solar_generation ∧
    ("0.0" : String) = oneDecimal periodP2.solar_generation ∧
    ∃ field : BillingPeriod → ℚ,
      ("Solar Generation", field) ∈ chartedFields ∧
      RendersQuantities ["1e+21", "0.0"] ((sortedPeriods 12 hugeThenP2).map field) :=
  ⟨by decide, by decide!, by decide!,
   (C10_values_have_one_decimal "bar" 12 hugeThenP2).1
     { name := "Solar Generation", type := "column", data := ["1e+21", "0.0"] } (by decide!)⟩

/-! ## C11 -/

/-- The last element of the ascending sort has the greatest `end_date`. -/
theorem sort_ascending_getLast_max (xs : List BillingPeriod) (q : BillingPeriod)
    (hq : (Array.sort xs compareAscending).getLast? = some q) :
    q ∈ xs ∧ ∀ a ∈ xs, a.end_date ≤ q.end_date := by
  have hperm := sort_perm xs compareAscending
  have hsorted := sort_ascending_sorted xs
  rw [List.getLast?_eq_head?_reverse] at hq
  have hrev : (Array.sort xs compareAscending).reverse.Sorted
      (fun a b => b.end_date ≤ a.end_date) := List.pairwise_reverse.mpr hsorted
  cases hs : (Array.sort xs compareAscending).reverse with
  | nil => rw [hs] at hq; cases hq
  | cons r rest =>
    rw [hs] at hq hrev
    have hrq : r = q := by simpa using hq
    subst hrq
    have hmem : ∀ a, a ∈ r :: rest ↔ a ∈ xs := by
      intro a
      rw [← hs, List.mem_reverse]
      exact hperm.mem_iff
    refine ⟨(hmem r).mp (List.mem_cons_self r rest), ?_⟩
    intro a ha
    rcases List.mem_cons.mp ((hmem a).mpr ha) with rfl | hin
    · exact le_refl _
    · exact List.rel_of_sorted_cons hrev a hin

/-- For `period_months ≥ 1` the window ends where the ascending sort ends. -/
theorem sortedPeriods_getLast (period_months : Int) (periodsData : PeriodCollection)
    (hne : periodsData ≠ []) (hpm : 1 ≤ period_months) :
    (sortedPeriods period_months periodsData).getLast? =
      (Array.sort (Object.values periodsData) compareAscending).getLast? := by
  have hlen : (Array.sort (Object.values periodsData) compareAscending).length
      = periodsData.length := by
    rw [sort_length]; simp [Object.values]
  have hpos : 0 < periodsData.length := List.length_pos.mpr hne
  unfold sortedPeriods
  rw [slice_neg _ _ hpm, List.getLast?_drop, hlen, if_neg (by omega)]

/-- C11: for every non-empty collection whose periods have pairwise distinct
`end_date` values and every integer `period_months ≥ 1`, the period that
`renderMetrics` selects as latest is the last period of the window that
`renderChart` charts.  Without distinct dates the two may differ: in
`tiedCollection` the descending sort starts with the first-iterated period and
the ascending sort ends with the last-iterated one. -/
theorem C11_latest_is_last_of_window (periodsData : PeriodCollection) (period_months : Int)
    (hne : periodsData ≠ [])
    (hdistinct : ((Object.values periodsData).map (fun p => p.end_date)).Nodup)
    (hpm : 1 ≤ period_months) :
    latestPeriod periodsData = (sortedPeriods period_months periodsData).getLast? ∧
    (∃ p, latestPeriod periodsData = some p) ∧
    (latestPeriod tiedCollection = some tiedFirst ∧
      (sortedPeriods period_months tiedCollection).getLast? = some tiedSecond ∧
      tiedFirst ≠ tiedSecond) := by
  have hinj := List.inj_on_of_nodup_map hdistinct
  refine ⟨?_, latestPeriod_exists periodsData hne, by decide, ?_, by decide⟩
  · rw [sortedPeriods_getLast period_months periodsData hne hpm]
    -- the head of the descending sort
    obtain ⟨p, hp⟩ := latestPeriod_exists periodsData hne
    have hpmem : p ∈ Object.values periodsData := by
      have hperm := sort_perm (Object.values periodsData) compareDescending
      unfold latestPeriod at hp
      exact hperm.subset (List.mem_of_mem_head? hp)
    have hpmax : ∀ a ∈ Object.values periodsData, a.end_date ≤ p.end_date := by
      intro a ha
      have hperm := sort_perm (Object.values periodsData) compareDescending
      have hsorted := sort_descending_sorted (Object.values periodsData)
      unfold latestPeriod at hp
      cases hs : Array.sort (Object.values periodsData) compareDescending with
      | nil => rw [hs] at hp; cases hp
      | cons r rest =>
        rw [hs] at hp hperm hsorted
        have hrp : r = p := by simpa using hp
        subst hrp
        rcases List.mem_cons.mp (hperm.symm.subset ha) with rfl | hin
        · exact le_refl _
        · exact List.rel_of_sorted_cons hsorted a hin
    -- the last element of the ascending sort
    cases hq : (Array.sort (Object.values periodsData) compareAscending).getLast? with
    | none =>
      have hnil : Array.sort (Object.values periodsData) compareAscending = [] :=
        List.getLast?_eq_none_iff.mp hq
      have hlen := sort_length (Object.values periodsData) compareAscending
      rw [hnil] at hlen
      have : periodsData = [] := by
        simpa [Object.values] using hlen.symm
      exact absurd this hne
    | some q =>
      obtain ⟨hqmem, hqmax⟩ := sort_ascending_getLast_max _ q hq
      have hdate : p.end_date = q.end_date :=
        le_antisymm (hqmax p hpmem) (hpmax q hqmem)
      rw [hp, hinj hpmem hqmem hdate]
  · rw [sortedPeriods_getLast period_months tiedCollection (by decide) hpm]
    decide

/-- C11 at Scenario B with `period_months = 1`: both the latest period and the
last period of the window are P2. -/
theorem C11_latest_is_last_of_window_witness :
    scenarioB ≠ [] ∧ ((Object.values scenarioB).map (fun p => p.end_date)).Nodup ∧
    (1 : Int) ≤ 1 ∧ latestPeriod scenarioB = some periodP2 ∧
    latestPeriod scenarioB = (sortedPeriods 1 scenarioB).getLast? :=
  ⟨by decide, by decide, by decide, by decide,
   (C11_latest_is_last_of_window scenarioB 1 (by decide) (by decide) (by decide)).1⟩

/-! ## C12 -/

/-- C12: `setConfig` applied to the object returned by `getStubConfig` throws
the "at least one energy generation report entity" error, for the stub's
`entities` list is empty.  Whenever `setConfig` throws that error, `_entities`
keeps its previous value while `_config` has already been replaced by the
rejected configuration merged over the defaults; on a card configured before,
the rejected stub therefore changes `_config` and the rejection is not
atomic. -/
theorem C12_stub_rejected_not_atomic (self : CardState) (config : CardConfig) :
    getStubConfig.entities = some [] ∧
    (setConfig self (some getStubConfig)).1 =
      .error "You need to define at least one energy generation report entity" ∧
    ((setConfig self (some config)).1 =
        .error "You need to define at least one energy generation report entity" →
      (setConfig self (some config)).2._entities = self._entities ∧
      (setConfig self (some config)).2._config = withDefaults config) ∧
    ((setConfig configuredCard (some getStubConfig)).2._entities = configuredCard._entities ∧
      (setConfig configuredCard (some getStubConfig)).2._config = withDefaults getStubConfig ∧
      (setConfig configuredCard (some getStubConfig)).2._config ≠ configuredCard._config) := by
  refine ⟨rfl, rfl, ?_, by decide, by decide, by decide⟩
  intro herr
  cases he : config.entities with
  | none => simp [setConfig, withDefaults, he]
  | some es =>
    cases es with
    | nil => simp [setConfig, withDefaults, he]
    | cons e es => simp [setConfig, withDefaults, he] at herr

/-- C12 at the stub configuration given to a card configured before. -/
theorem C12_stub_rejected_not_atomic_witness :
    (setConfig configuredCard (some getStubConfig)).1 =
      .error "You need to define at least one energy generation report entity" ∧
    (setConfig configuredCard (some getStubConfig)).2._entities = ["sensor.energy_report"] ∧
    (setConfig configuredCard (some getStubConfig)).2._config = withDefaults getStubConfig :=
  have h := C12_stub_rejected_not_atomic configuredCard getStubConfig
  ⟨h.2.1, (h.2.2.1 h.2.1).1, (h.2.2.1 h.2.1).2⟩

end EnergyReport
